import Mathlib

/-!
Verification development for the Coding for Economists book repository.

The repository is a collection of book chapters (markdown documents and
Jupyter notebooks) plus configuration for the book build and for pre-commit
hygiene.  This file gives a shallow embedding of the pieces of that content
that carry checkable structure: the day-code-to-date conversion defined in
the exploratory-data-analysis chapter, the cross-correlation helper and the
inflation adjustment of the time-series notebook, the pre-commit
configuration, the table of contents, the statement-level shape of every
code cell of every chapter source, and the notebook cell metadata.  Dates
are modelled at day resolution as integers counting days since 1970-01-01;
numeric series are lists of rationals, and the float arithmetic of the
cross-correlation helper is embedded at real-number precision.
-/

namespace CodingForEconomists

/-! ## Day-resolution dates -/

/-- Day number (days since 1970-01-01) of 2005-01-01, the timestamp produced
by the call pd.to_datetime applied to the string 01-01-2005 in the
exploratory-data-analysis chapter.  (35 years of 365 days plus 9 leap days
for 1972, 1976, ..., 2004.) -/
def jan1_2005 : ℤ := 12784

/-- The day-counter value that the Grinnell housing dataset documentation
assigns to 2005-01-01; bound as a local constant inside
convert_date_code_to_datetime in the exploratory-data-analysis chapter. -/
def start_code : ℤ := 16436

/-- Shallow embedding of convert_date_code_to_datetime from
data-exploratory-analysis.ipynb: the source returns pd.to_datetime applied
to the string 01-01-2005 plus pd.DateOffset of (date - start_code) days.
Timestamps are modelled at day resolution, so the result is the day number
of 2005-01-01 shifted by (date - start_code) days. -/
def convert_date_code_to_datetime (date : ℤ) : ℤ :=
  jan1_2005 + (date - start_code)

/-! ## The inflation adjustment of the time-series notebook -/

/-- Day number (days since 1970-01-01) of 2021-12-31, the base date of the
inflation adjustment in the time-series notebook. -/
def base_date : ℤ := 18992

/-- Shallow embedding of the cheddar_i_adjust column built in the
time-series notebook, which assigns
cdf.loc of (2021-12-31, inflation) times cdf of cheddar over cdf of
inflation.  The two columns of the frame are modelled as functions from day
numbers to rationals, and the adjusted column as the function of t given by
the same expression. -/
def cheddar_i_adjust (inflation cheddar : ℤ → ℚ) (t : ℤ) : ℚ :=
  inflation base_date * cheddar t / inflation t

/-! ## The cross-correlation helper of the time-series notebook

The function ccf_stats of the time-series notebook computes, for two
numeric series, the full cross-correlation of the mean-removed series via
scipy.signal.correlate, divides it by the product of the two standard
deviations and the series length, and slices out the entries within
lag_max of the zero-lag centre; when no lag bound (or the bound 0) is
given it uses int of 10 times the base-10 logarithm of half the shorter
length.  Series are embedded as lists of rationals and the float
arithmetic at real-number precision. -/

/-- Arithmetic mean of a list of rationals (0 for the empty list, since the
length coerces to 0 and division by 0 yields 0). -/
def listMean (xs : List ℚ) : ℚ := xs.sum / (xs.length : ℚ)

/-- The mean-removed copy of a series: every entry minus the series mean
(x - np.mean(x) in the source). -/
def demean (xs : List ℚ) : List ℚ := xs.map (fun v => v - listMean xs)

/-- Entry k of the full cross-correlation of two series in the convention
of scipy.signal.correlate with mode full: for equal-length series of
length n there are 2n-1 entries, k ranging over 0 .. 2n-2, and entry k is
the sum over l of x(l) * y(l + (n-1) - k); a negative y-index is guarded
to 0 and an out-of-range y-index contributes 0 through getD.  Entry n-1 is
the zero-lag entry, the plain inner product of the two series. -/
def corrAt (x y : List ℚ) (k : ℕ) : ℚ :=
  ((List.range x.length).map (fun l =>
    if l + x.length ≤ k then 0
    else x.getD l 0 * y.getD (l + x.length - 1 - k) 0)).sum

/-- The full cross-correlation of two series: length x + length y - 1
entries, as scipy.signal.correlate returns in mode full. -/
def crossCorrFull (x y : List ℚ) : List ℚ :=
  (List.range (x.length + y.length - 1)).map (corrAt x y)

/-- Population standard deviation in the numpy convention (np.std with its
default ddof of 0): the square root of the mean of squared deviations,
embedded at real-number precision. -/
noncomputable def npStd (xs : List ℚ) : ℝ :=
  Real.sqrt ((listMean (xs.map (fun v => (v - listMean xs) ^ 2)) : ℚ) : ℝ)

/-- The local variable result of ccf_stats: the full cross-correlation of
the mean-removed series divided by np.std(y) * np.std(x) * len(y). -/
noncomputable def ccfResult (x y : List ℚ) : List ℝ :=
  (crossCorrFull (demean x) (demean y)).map
    (fun (c : ℚ) => (c : ℝ) / (npStd y * npStd x * (y.length : ℝ)))

/-- The default lag bound of ccf_stats:
int(10 * np.log10(min(len(x), len(y)) / 2)).  Int.floor agrees with the
int truncation of Python whenever the argument is nonnegative, which holds
whenever the shorter series has at least 2 entries. -/
noncomputable def defaultLagMax (x y : List ℚ) : ℕ :=
  (⌊(10 : ℝ) * Real.logb 10 (((min x.length y.length : ℕ) : ℝ) / 2)⌋).toNat

/-- The final slice of ccf_stats, mirroring its local variables: length is
(len(result) - 1) // 2, lo is length - lag_max, hi is length + lag_max + 1,
and the function returns result[lo:hi] (a slice of hi - lo entries, clipped
at the end of the list).  A lag bound exceeding the centre index, which
Python would turn into a negative index, is clamped to 0 by the natural
subtraction instead; every claim hypothesis keeps the bound in range. -/
def lagSlice (result : List ℝ) (lm : ℕ) : List ℝ :=
  (result.drop ((result.length - 1) / 2 - lm)).take
    ((result.length - 1) / 2 + (lm + 1) - ((result.length - 1) / 2 - lm))

/-- Shallow embedding of ccf_stats from the time-series notebook: the
normalized full cross-correlation of the mean-removed series, sliced to
the entries within the lag bound of the zero-lag centre; the guard
`if not lag_max` of the source makes both a missing bound and the bound 0
fall back to the default. -/
noncomputable def ccf_stats (x y : List ℚ) (lag_max : Option ℕ) : List ℝ :=
  lagSlice (ccfResult x y)
    (match lag_max with
     | none => defaultLagMax x y
     | some l => if l = 0 then defaultLagMax x y else l)

/-! ## Statement-level embedding of the code cells of the chapters

Each code cell of each chapter source under src/ is embedded as the
ordered list of its top-level Python statements, classified by shape.
Call arguments are not embedded (they are data or inline lambdas local to
the call); the callee string names the library entry point of the
statement, and bound names are recorded so that name resolution across
cells can be checked. -/

/-- An operation inside the body of a function defined by the code of the
repository itself: a call into an existing library routine, elementary
arithmetic or indexing on local values, or (the case that never occurs in
the embedded chapters) some other custom computation. -/
inductive PyOp
  | libCall (callee : String)
  | arith
  | custom (desc : String)
deriving DecidableEq

/-- A simple Python statement: an expression statement consisting of a
direct call into a third-party library object or a callable bound earlier
in the same chapter, an assignment binding the result of such a call or
attribute chain to the listed targets, or an assignment of a constant
literal or of elementary arithmetic over builtins and local values. -/
inductive SimpleStmt
  | exprCall (callee : String)
  | assignCall (targets : List String) (callee : String)
  | assignLit (targets : List String) (lit : String)
deriving DecidableEq

/-- A top-level Python statement of a code cell.  rawStmt is the catch-all
for any statement that is not one of: a module import, a simple statement,
a for loop over simple statements, a function definition.  Thread,
process, coroutine or async constructs would have to be embedded as
rawStmt, and none occurs in the embedded chapters. -/
inductive Stmt
  | importStmt (module : String) (binds : String)
  | simple (s : SimpleStmt)
  | forLoop (vars : List String) (iter : String) (body : List SimpleStmt)
  | funcDef (fname : String) (ops : List PyOp)
  | rawStmt (desc : String)
deriving DecidableEq

/-- Names bound by a simple statement (its assignment targets). -/
def SimpleStmt.boundNames : SimpleStmt → List String
  | .exprCall _ => []
  | .assignCall ts _ => ts
  | .assignLit ts _ => ts

/-- Names bound at the top level by a statement: the name an import binds,
assignment targets, loop variables together with names bound in the loop
body, and the name of a defined function. -/
def Stmt.boundNames : Stmt → List String
  | .importStmt _ b => [b]
  | .simple s => s.boundNames
  | .forLoop vs _ body => vs ++ body.foldr (fun s acc => s.boundNames ++ acc) []
  | .funcDef n _ => [n]
  | .rawStmt _ => []

/-- Runtime state a statement produces: assignment targets, loop variables
and loop-body targets, and defined function names.  A module import binds a
name but produces no runtime state of the chapter: the module object comes
from the installed library, not from executing the chapter. -/
def Stmt.producedNames : Stmt → List String
  | .importStmt _ _ => []
  | .simple s => s.boundNames
  | .forLoop vs _ body => vs ++ body.foldr (fun s acc => s.boundNames ++ acc) []
  | .funcDef n _ => [n]
  | .rawStmt _ => []

/-- True for every statement shape except the rawStmt catch-all, which is
where any non-synchronous construct (thread, process, coroutine, async
task) would have to live. -/
def Stmt.isPlainSync : Stmt → Bool
  | .rawStmt _ => false
  | _ => true

/-- A code cell: its notebook metadata (execution count and outputs, both
absent for cells of markdown chapters), whether the book build executes it
(code-cell directives nested inside panel directives are display-only), the
free names it references besides Python builtins, and its statements. -/
structure CodeCell where
  executionCount : Option Nat
  outputs : List String
  executed : Bool
  uses : List String
  stmts : List Stmt
deriving DecidableEq

/-- All names bound at the top level by the statements of a cell. -/
def CodeCell.boundNames (c : CodeCell) : List String :=
  c.stmts.foldr (fun s acc => s.boundNames ++ acc) []

/-- Runtime state produced by a cell (assignment targets and function
definitions, without import bindings). -/
def CodeCell.producedNames (c : CodeCell) : List String :=
  c.stmts.foldr (fun s acc => s.producedNames ++ acc) []

/-- Modules imported by a cell. -/
def CodeCell.importedModules (c : CodeCell) : List String :=
  c.stmts.filterMap (fun s =>
    match s with
    | .importStmt m _ => some m
    | _ => none)

/-- A chapter: its file name, whether its source is a Jupyter notebook,
its code cells in document order, and the code snippets it displays
without executing (code-block directives). -/
structure Chapter where
  name : String
  isNotebook : Bool
  cells : List CodeCell
  displayBlocks : List (List Stmt)
deriving DecidableEq

/-- Modules imported anywhere in a chapter. -/
def Chapter.importedModules (ch : Chapter) : List String :=
  ch.cells.foldr (fun c acc => c.importedModules ++ acc) []

/-- Python builtins referenced by the embedded cells. -/
def pythonBuiltins : List String :=
  ["print", "len", "enumerate", "float", "range", "next", "int", "min"]

/-- Checks that, walking the executed cells in order, every free name a
cell references is bound by an earlier executed cell of the same chapter or
by the cell itself (imports included); env carries the names bound so
far. -/
def cellsResolve (env : List String) : List CodeCell → Bool
  | [] => true
  | c :: rest =>
    if c.executed then
      c.uses.all (fun u => (env ++ c.boundNames ++ pythonBuiltins).elem u) &&
        cellsResolve (env ++ c.boundNames) rest
    else
      cellsResolve env rest

/-- A chapter is self-contained when every name its executed cells
reference resolves inside the chapter itself. -/
def Chapter.selfContained (ch : Chapter) : Bool :=
  cellsResolve [] ch.cells

/-- All names bound by the executed cells of a chapter, in any order. -/
def Chapter.boundAllNames (ch : Chapter) : List String :=
  ch.cells.foldr
    (fun c acc => (if c.executed then c.boundNames else []) ++ acc) []

/-- Names the executed cells of a chapter use that neither the chapter
itself binds anywhere nor Python provides as a builtin.  At run time such
a name raises a NameError when the chapter executes on its own; it is also
the only kind of name through which a chapter could observe bindings made
by other code. -/
def Chapter.unresolvedNames (ch : Chapter) : List String :=
  ch.cells.foldr
    (fun c acc =>
      (if c.executed then
        c.uses.filter
          (fun u => !((ch.boundAllNames ++ pythonBuiltins).elem u))
      else []) ++ acc) []

/-- Runtime state produced by the executed cells of a chapter: every name
its assignments, loops and function definitions write. -/
def Chapter.producedState (ch : Chapter) : List String :=
  ch.cells.foldr
    (fun c acc => (if c.executed then c.producedNames else []) ++ acc) []

/-! ## The exploratory-data-analysis chapter

Embedded cell by cell from src/data-exploratory-analysis.ipynb.  Every code
cell of the committed notebook has execution_count null (embedded as none)
and an empty outputs list. -/

/-- The import cell of the EDA notebook: imports of pandas, matplotlib,
numpy and itertools, then the plt.style.use call. -/
def edaImportsCell : CodeCell :=
  { executionCount := none, outputs := [], executed := true
    uses := ["plt"]
    stmts :=
      [Stmt.importStmt "pandas" "pd",
       Stmt.importStmt "matplotlib.pyplot" "plt",
       Stmt.importStmt "numpy" "np",
       Stmt.importStmt "itertools" "islice",
       Stmt.simple (SimpleStmt.exprCall "plt.style.use")] }

/-- The data-loading cell of the EDA notebook: df = pd.read_csv of the
Grinnell houses CSV, then df.head(). -/
def edaReadCsvCell : CodeCell :=
  { executionCount := none, outputs := [], executed := true
    uses := ["pd", "df"]
    stmts :=
      [Stmt.simple (SimpleStmt.assignCall ["df"] "pd.read_csv"),
       Stmt.simple (SimpleStmt.exprCall "df.head")] }

/-- The date-conversion cell of the EDA notebook: the definition of
convert_date_code_to_datetime (whose body calls pd.to_datetime and
pd.DateOffset and subtracts the start code), its application to the Date
column, and the df.nlargest check. -/
def edaDateConvCell : CodeCell :=
  { executionCount := none, outputs := [], executed := true
    uses := ["pd", "df", "convert_date_code_to_datetime"]
    stmts :=
      [Stmt.funcDef "convert_date_code_to_datetime"
        [PyOp.libCall "pd.to_datetime", PyOp.libCall "pd.DateOffset",
         PyOp.arith],
       Stmt.simple (SimpleStmt.assignCall ["df[datetime]"] "df[Date].apply"),
       Stmt.simple (SimpleStmt.exprCall "df.nlargest")] }

/-- The profiling-report cell of the EDA notebook: the pandas_profiling
import, the ProfileReport construction and its notebook rendering. -/
def edaProfilingCell : CodeCell :=
  { executionCount := none, outputs := [], executed := true
    uses := ["df", "ProfileReport", "profile"]
    stmts :=
      [Stmt.importStmt "pandas_profiling" "ProfileReport",
       Stmt.simple (SimpleStmt.assignCall ["profile"] "ProfileReport"),
       Stmt.simple (SimpleStmt.exprCall "profile.to_notebook_iframe")] }

/-- Helper to shorten the embedding of stripped, executed notebook cells:
a cell with execution_count null, no outputs, the given uses and
statements. -/
def nbCell (uses : List String) (stmts : List Stmt) : CodeCell :=
  { executionCount := none, outputs := [], executed := true
    uses := uses, stmts := stmts }

/-- The exploratory-data-analysis chapter: the 30 code cells of
src/data-exploratory-analysis.ipynb in document order. -/
def edaChapter : Chapter :=
  { name := "data-exploratory-analysis", isNotebook := true
    displayBlocks := []
    cells :=
      [edaImportsCell,
       edaReadCsvCell,
       edaDateConvCell,
       nbCell ["df"] [Stmt.simple (SimpleStmt.exprCall "df.info")],
       nbCell ["df"]
         [Stmt.simple (SimpleStmt.assignCall ["df"] "df.assign"),
          Stmt.simple (SimpleStmt.exprCall "df.info")],
       nbCell ["df", "clean_headers"]
         [Stmt.importStmt "dataprep.clean" "clean_headers",
          Stmt.simple (SimpleStmt.assignCall ["df"] "clean_headers"),
          Stmt.simple (SimpleStmt.exprCall "df.columns")],
       nbCell ["df"] [Stmt.simple (SimpleStmt.exprCall "df.describe")],
       nbCell ["df", "sum_table"]
         [Stmt.simple (SimpleStmt.assignCall ["sum_table"] "df.describe"),
          Stmt.simple (SimpleStmt.exprCall "sum_table")],
       nbCell ["sum_table"]
         [Stmt.simple (SimpleStmt.assignCall ["sum_table"] "sum_table.T"),
          Stmt.simple (SimpleStmt.exprCall "sum_table")],
       nbCell ["sum_table"]
         [Stmt.simple (SimpleStmt.exprCall "sum_table.to_string")],
       nbCell ["sum_table"]
         [Stmt.simple (SimpleStmt.exprCall "sum_table.to_markdown")],
       nbCell ["sum_table"]
         [Stmt.simple (SimpleStmt.exprCall "sum_table.head.to_html")],
       nbCell ["sum_table"]
         [Stmt.simple (SimpleStmt.exprCall "sum_table.to_latex")],
       nbCell ["df"] [Stmt.simple (SimpleStmt.exprCall "df.groupby")],
       nbCell ["pd", "df"] [Stmt.simple (SimpleStmt.exprCall "pd.crosstab")],
       nbCell ["df"]
         [Stmt.simple (SimpleStmt.exprCall "df.iloc.style.format.bar")],
       nbCell ["df"] [Stmt.simple (SimpleStmt.exprCall "df.groupby")],
       nbCell ["df"]
         [Stmt.simple (SimpleStmt.exprCall "df.iloc.style.highlight_max")],
       nbCell ["df", "pd"] [Stmt.simple (SimpleStmt.exprCall "df.set_index")],
       nbCell ["df", "pd"] [Stmt.simple (SimpleStmt.exprCall "df.set_index")],
       nbCell ["df"]
         [Stmt.simple (SimpleStmt.exprCall "df.square_feet.plot.kde")],
       nbCell ["df"] [Stmt.simple (SimpleStmt.exprCall "df.value_counts")],
       nbCell ["df"]
         [Stmt.simple (SimpleStmt.exprCall "df[year_built].plot.hist")],
       nbCell ["df"] [Stmt.simple (SimpleStmt.exprCall "df.plot.box")],
       nbCell ["df", "pd", "np"]
         [Stmt.simple (SimpleStmt.assignCall ["df[class_ln_price]"] "pd.cut"),
          Stmt.simple (SimpleStmt.exprCall "df.set_index")],
       nbCell ["df"] [Stmt.simple (SimpleStmt.exprCall "df.plot.scatter")],
       nbCell ["df"] [Stmt.simple (SimpleStmt.exprCall "df.plot.hexbin")],
       edaProfilingCell,
       nbCell ["df", "create_report"]
         [Stmt.importStmt "dataprep.eda" "create_report",
          Stmt.simple (SimpleStmt.assignCall ["report"] "create_report")],
       nbCell ["display", "report"]
         [Stmt.importStmt "IPython.core.display" "display",
          Stmt.simple (SimpleStmt.exprCall "display")]] }

/-! ## The common-plots chapter

Embedded from src/_sources/common-plots.md.  The chapter has four top-level
code cells executed by the book build; the code-cell directives nested
inside panel directives are display-only copies of the scatter-plot loop,
and the code-block directives (among them one that calls df.mean on a name
df never defined in the chapter) are never executed. -/

/-- The scatter-plot loop statements shared by the executed glue cell of
the common-plots chapter and its display-only copies: the colormap and
colour-list assignments (the colour list applies the library colormap over
np.linspace), the subplots call, the loop over origins that filters the
cars frame and scatters it, and the axis labelling and show calls. -/
def scatterLoopStmts : List Stmt :=
  [Stmt.simple (SimpleStmt.assignCall ["colormap"] "plt.cm.Set1"),
   Stmt.simple (SimpleStmt.assignCall ["colorst"] "np.linspace"),
   Stmt.simple (SimpleStmt.assignCall ["fig", "ax"] "plt.subplots"),
   Stmt.forLoop ["i", "origin"] "enumerate"
     [SimpleStmt.assignCall ["cars_sub"] "cars[cars[Origin] == origin]",
      SimpleStmt.exprCall "ax.scatter"],
   Stmt.simple (SimpleStmt.exprCall "ax.set_ylabel"),
   Stmt.simple (SimpleStmt.exprCall "ax.set_xlabel"),
   Stmt.simple (SimpleStmt.exprCall "ax.legend"),
   Stmt.simple (SimpleStmt.exprCall "plt.show")]

/-- A display-only copy of the scatter-plot loop, as it appears nested
inside the panel directives of the common-plots chapter. -/
def scatterLoopDisplayCell : CodeCell :=
  { executionCount := none, outputs := [], executed := false
    uses := ["plt", "np", "cars", "colormap", "colorst", "ax"]
    stmts := scatterLoopStmts }

/-- The common-plots chapter: the four executed top-level code cells of
src/_sources/common-plots.md, the two display-only nested code cells, and
the two display-only code blocks (the tabbed copy of the scatter loop and
the df.mean snippet). -/
def commonPlotsChapter : Chapter :=
  { name := "vis-common-plots", isNotebook := false
    cells :=
      [{ executionCount := none, outputs := [], executed := true
         uses := []
         stmts :=
           [Stmt.importStmt "numpy" "np",
            Stmt.importStmt "pandas" "pd",
            Stmt.importStmt "matplotlib.pyplot" "plt",
            Stmt.importStmt "plotnine" "*",
            Stmt.importStmt "altair" "alt",
            Stmt.importStmt "vega_datasets" "data"] },
       { executionCount := none, outputs := [], executed := true
         uses := ["np", "pd"]
         stmts :=
           [Stmt.simple (SimpleStmt.exprCall "np.random.seed"),
            Stmt.simple (SimpleStmt.exprCall "pd.set_option")] },
       { executionCount := none, outputs := [], executed := true
         uses := ["data", "cars"]
         stmts :=
           [Stmt.simple (SimpleStmt.assignCall ["cars"] "data.cars"),
            Stmt.simple (SimpleStmt.exprCall "cars.head")] },
       { executionCount := none, outputs := [], executed := true
         uses := ["plt", "np", "cars", "colormap", "colorst", "ax", "fig",
                  "glue"]
         stmts :=
           Stmt.importStmt "myst_nb" "glue" ::
             (scatterLoopStmts ++ [Stmt.simple (SimpleStmt.exprCall "glue")]) },
       scatterLoopDisplayCell,
       scatterLoopDisplayCell]
    displayBlocks :=
      [scatterLoopStmts,
       [Stmt.simple (SimpleStmt.exprCall "df.mean")]] }

/-- The coming-from-r chapter (src/unnamed/part_000): prose and translation
tables only, with no code cells. -/
def comingFromRChapter : Chapter :=
  { name := "coming-from-r", isNotebook := false
    cells := [], displayBlocks := [] }

/-! ## The RBC-model chapter

Embedded from the notebook titled Modelling with RBC that sits in the
src/.pre-commit-config.yaml blob between the pre-commit configuration and
the time-series notebook.  It is not declared in src/_toc.yml.  Its single
code cell calls pd.set_option although no statement of the notebook
imports pandas or binds pd. -/

/-- The single code cell of the RBC-model notebook: five imports (pandas
not among them), the pd.set_option and plt.style.use calls, the literal
seed assignment and the construction of the random generator. -/
def rbcCodeCell : CodeCell :=
  { executionCount := none, outputs := [], executed := true
    uses := ["pd", "plt", "seed_for_prng", "Generator", "PCG64"]
    stmts :=
      [Stmt.importStmt "numpy" "np",
       Stmt.importStmt "matplotlib.pyplot" "plt",
       Stmt.importStmt "statsmodels.formula.api" "smf",
       Stmt.importStmt "sympy" "*",
       Stmt.importStmt "numpy.random" "Generator",
       Stmt.importStmt "numpy.random" "PCG64",
       Stmt.simple (SimpleStmt.exprCall "pd.set_option"),
       Stmt.simple (SimpleStmt.exprCall "plt.style.use"),
       Stmt.simple (SimpleStmt.assignLit ["seed_for_prng"] "78557"),
       Stmt.simple (SimpleStmt.assignCall ["prng"] "Generator")] }

/-- The RBC-model chapter: prose, model equations and the single code cell
above. -/
def rbcChapter : Chapter :=
  { name := "rbc-model", isNotebook := true
    cells := [rbcCodeCell], displayBlocks := [] }

/-! ## The time-series chapter

Embedded cell by cell from the time-series notebook in the
src/.pre-commit-config.yaml blob: 43 code cells, every one with
execution_count null and an empty outputs list. -/

/-- The import cell of the time-series notebook: the eight imports (the
from-import of numpy.random binds the two names Generator and PCG64 and is
embedded as two import statements), the style and display settings, the
literal seed assignment and the construction of the random generator. -/
def tsImportsCell : CodeCell :=
  { executionCount := none, outputs := [], executed := true
    uses := ["plt", "pd", "Generator", "PCG64", "seed_for_prng"]
    stmts :=
      [Stmt.importStmt "numpy" "np",
       Stmt.importStmt "pandas" "pd",
       Stmt.importStmt "statsmodels.api" "sm",
       Stmt.importStmt "statsmodels.graphics" "tsaplots",
       Stmt.importStmt "rich" "inspect",
       Stmt.importStmt "numpy.random" "Generator",
       Stmt.importStmt "numpy.random" "PCG64",
       Stmt.importStmt "matplotlib.pyplot" "plt",
       Stmt.simple (SimpleStmt.exprCall "plt.style.use"),
       Stmt.simple (SimpleStmt.exprCall "pd.set_option"),
       Stmt.simple (SimpleStmt.assignLit ["seed_for_prng"] "78557"),
       Stmt.simple (SimpleStmt.assignCall ["prng"] "Generator")] }

/-- The cell of the time-series notebook that defines ccf_stats: the
scipy.signal import, then the function whose body computes the default lag
bound with np.log10, correlates the mean-removed series with ss.correlate,
normalises by the standard deviations and length, and slices the result by
index arithmetic. -/
def tsCcfDefCell : CodeCell :=
  { executionCount := none, outputs := [], executed := true
    uses := ["np", "ss"]
    stmts :=
      [Stmt.importStmt "scipy.signal" "ss",
       Stmt.funcDef "ccf_stats"
         [PyOp.libCall "np.log10", PyOp.arith, PyOp.libCall "ss.correlate",
          PyOp.libCall "np.mean", PyOp.libCall "np.std", PyOp.arith]] }

/-- The inflation-adjustment cell of the time-series notebook: the
cheddar_i_adjust column assignment (base-date inflation times the nominal
cheddar column over the inflation column) and the comparison plot. -/
def tsCheddarCell : CodeCell :=
  { executionCount := none, outputs := [], executed := true
    uses := ["cdf", "plt", "ax"]
    stmts :=
      [Stmt.simple (SimpleStmt.assignCall ["cdf[cheddar_i_adjust]"]
        "cdf.loc[2021-12-31, inflation] * cdf[cheddar] / cdf[inflation]"),
       Stmt.simple (SimpleStmt.assignCall ["fig", "ax"] "plt.subplots"),
       Stmt.simple (SimpleStmt.exprCall "ax.plot"),
       Stmt.simple (SimpleStmt.exprCall "ax.plot"),
       Stmt.simple (SimpleStmt.exprCall "ax.set_ylabel"),
       Stmt.simple (SimpleStmt.exprCall "ax.legend"),
       Stmt.simple (SimpleStmt.exprCall "plt.show")] }

/-- The Box-Cox cell of the time-series notebook: the scipy stats import,
the sampled data and lambda-grid assignments, plot-grid setup, the loop
over axes (the second title assignment is guarded by an if on the loop
index), and the final decoration calls (the set_xlim call runs in a list
comprehension over the axes). -/
def tsBoxCoxCell : CodeCell :=
  { executionCount := none, outputs := [], executed := true
    uses := ["prng", "stats", "np", "plt", "data", "λ_values", "num_plots",
             "x", "bins", "axes", "values", "title", "mu", "std", "p", "i",
             "ax"]
    stmts :=
      [Stmt.importStmt "scipy" "stats",
       Stmt.simple (SimpleStmt.assignCall ["data"] "prng.exponential"),
       Stmt.simple (SimpleStmt.assignCall ["λ_values"] "stats.boxcox"),
       Stmt.simple (SimpleStmt.assignLit ["num_plots"] "len(λ_values) + 1"),
       Stmt.simple (SimpleStmt.assignCall ["x"] "np.linspace"),
       Stmt.simple (SimpleStmt.assignLit ["bins"] "30"),
       Stmt.simple (SimpleStmt.assignCall ["fig", "axes"] "plt.subplots"),
       Stmt.simple (SimpleStmt.assignCall ["axes"] "axes.flatten"),
       Stmt.forLoop ["i", "ax"] "enumerate"
         [SimpleStmt.assignCall ["values"] "stats.boxcox",
          SimpleStmt.exprCall "ax.hist",
          SimpleStmt.assignLit ["title"] "lambda label string",
          SimpleStmt.assignLit ["title"] "optimal lambda label string",
          SimpleStmt.assignCall ["mu", "std"] "stats.norm.fit",
          SimpleStmt.assignCall ["p"] "stats.norm.pdf",
          SimpleStmt.exprCall "ax.set_title",
          SimpleStmt.exprCall "ax.plot"],
       Stmt.simple (SimpleStmt.exprCall "axes[0].hist"),
       Stmt.simple (SimpleStmt.exprCall "axes[0].set_title"),
       Stmt.simple (SimpleStmt.exprCall "ax.set_xlim"),
       Stmt.simple (SimpleStmt.exprCall "plt.suptitle"),
       Stmt.simple (SimpleStmt.exprCall "plt.tight_layout"),
       Stmt.simple (SimpleStmt.exprCall "plt.show")] }

/-- The time-series chapter: the 43 code cells of the time-series notebook
in document order. -/
def timeSeriesChapter : Chapter :=
  { name := "time-series", isNotebook := true
    displayBlocks := []
    cells :=
      [tsImportsCell,
       nbCell ["pd", "inspect", "date"]
         [Stmt.simple (SimpleStmt.assignCall ["date"] "pd.to_datetime"),
          Stmt.simple (SimpleStmt.exprCall "inspect")],
       nbCell ["date", "pd", "np"]
         [Stmt.simple (SimpleStmt.exprCall "date + pd.to_timedelta")],
       nbCell ["pd"] [Stmt.simple (SimpleStmt.exprCall "pd.date_range")],
       nbCell ["pd"] [Stmt.simple (SimpleStmt.exprCall "pd.date_range")],
       nbCell ["pd", "dti"]
         [Stmt.simple (SimpleStmt.assignCall ["dti"]
            "pd.date_range.tz_localize"),
          Stmt.simple (SimpleStmt.exprCall "dti.tz_convert")],
       nbCell ["pd", "requests", "url", "df"]
         [Stmt.importStmt "requests" "requests",
          Stmt.simple (SimpleStmt.assignLit ["url"] "ONS API URL string"),
          Stmt.simple (SimpleStmt.assignCall ["df"] "pd.DataFrame"),
          Stmt.simple (SimpleStmt.assignCall ["df[value]"] "pd.to_numeric"),
          Stmt.simple (SimpleStmt.assignCall ["df"] "df[[date, value]]"),
          Stmt.simple (SimpleStmt.assignCall ["df"] "df.rename"),
          Stmt.simple (SimpleStmt.exprCall "df.head")],
       nbCell ["df"] [Stmt.simple (SimpleStmt.exprCall "df.info")],
       nbCell ["pd", "df"]
         [Stmt.simple (SimpleStmt.assignCall ["df[date]"] "pd.to_datetime"),
          Stmt.simple (SimpleStmt.exprCall "df[date].head")],
       nbCell ["pd", "small_df"]
         [Stmt.simple (SimpleStmt.assignCall ["small_df"] "pd.DataFrame"),
          Stmt.simple (SimpleStmt.exprCall "small_df[date]")],
       nbCell ["pd", "small_df"]
         [Stmt.simple (SimpleStmt.exprCall "pd.to_datetime")],
       nbCell ["df", "pd"]
         [Stmt.simple (SimpleStmt.assignCall ["df[date]"]
            "df[date] + pd.offsets.MonthEnd"),
          Stmt.simple (SimpleStmt.exprCall "df.head")],
       nbCell ["df"]
         [Stmt.simple (SimpleStmt.assignCall ["df"] "df.set_index"),
          Stmt.simple (SimpleStmt.exprCall "df.head")],
       nbCell ["df"] [Stmt.simple (SimpleStmt.exprCall "df.index")],
       nbCell ["df"]
         [Stmt.simple (SimpleStmt.assignCall ["df"] "df.asfreq"),
          Stmt.simple (SimpleStmt.exprCall "df.index")],
       nbCell ["df"] [Stmt.simple (SimpleStmt.exprCall "df.plot")],
       nbCell ["df"] [Stmt.simple (SimpleStmt.exprCall "df.resample.mean")],
       nbCell ["df"]
         [Stmt.simple (SimpleStmt.exprCall "df.resample.agg.head")],
       nbCell ["df"]
         [Stmt.simple (SimpleStmt.exprCall "df.resample.asfreq")],
       nbCell ["df"]
         [Stmt.simple (SimpleStmt.exprCall "df.resample.interpolate")],
       nbCell ["web", "xf"]
         [Stmt.importStmt "pandas_datareader" "web",
          Stmt.simple (SimpleStmt.assignCall ["xf"] "web.DataReader"),
          Stmt.simple (SimpleStmt.assignCall ["xf"] "xf.sort_index")],
       nbCell ["plt", "xf", "ax", "data", "cycle"]
         [Stmt.simple (SimpleStmt.assignCall ["fig", "ax"] "plt.subplots"),
          Stmt.simple (SimpleStmt.assignCall ["data"] "xf.iloc"),
          Stmt.simple (SimpleStmt.assignCall ["cycle"]
            "ax._get_lines.prop_cycler"),
          Stmt.simple (SimpleStmt.exprCall "data.asfreq.plot"),
          Stmt.simple (SimpleStmt.exprCall "data.asfreq.plot"),
          Stmt.simple (SimpleStmt.exprCall "data.asfreq.plot"),
          Stmt.simple (SimpleStmt.exprCall "ax.set_ylabel"),
          Stmt.simple (SimpleStmt.exprCall "ax.legend")],
       nbCell ["df"] [Stmt.simple (SimpleStmt.exprCall "df.rolling.mean")],
       nbCell ["df"] [Stmt.simple (SimpleStmt.exprCall "df.ewm.mean")],
       nbCell ["plt", "xf", "ax", "roll_num", "alpha"]
         [Stmt.simple (SimpleStmt.assignCall ["fig", "ax"] "plt.subplots"),
          Stmt.simple (SimpleStmt.assignLit ["roll_num"] "28"),
          Stmt.simple (SimpleStmt.assignLit ["alpha"] "0.03"),
          Stmt.simple (SimpleStmt.exprCall "xf[Close].plot"),
          Stmt.simple (SimpleStmt.exprCall "xf[Close].expanding.mean.plot"),
          Stmt.simple (SimpleStmt.exprCall "xf[Close].ewm.mean.plot"),
          Stmt.simple (SimpleStmt.exprCall "xf[Close].rolling.mean.plot"),
          Stmt.simple (SimpleStmt.exprCall "ax.legend"),
          Stmt.simple (SimpleStmt.exprCall "ax.set_ylabel")],
       nbCell ["xf", "plt", "roll", "m", "ax"]
         [Stmt.simple (SimpleStmt.assignCall ["roll"] "xf[Close].rolling"),
          Stmt.simple (SimpleStmt.assignCall ["fig", "ax"] "plt.subplots"),
          Stmt.simple (SimpleStmt.assignCall ["m"] "roll.agg"),
          Stmt.simple (SimpleStmt.exprCall "m[mean].plot"),
          Stmt.simple (SimpleStmt.exprCall "ax.fill_between"),
          Stmt.simple (SimpleStmt.exprCall "ax.set_ylabel")],
       nbCell ["df", "lead", "lag", "orig_series_name"]
         [Stmt.simple (SimpleStmt.assignLit ["lead"] "12"),
          Stmt.simple (SimpleStmt.assignLit ["lag"] "3"),
          Stmt.simple (SimpleStmt.assignCall ["orig_series_name"]
            "df.columns"),
          Stmt.simple (SimpleStmt.assignCall ["df[lead months]"]
            "df[orig_series_name].shift"),
          Stmt.simple (SimpleStmt.assignCall ["df[lag months]"]
            "df[orig_series_name].shift"),
          Stmt.simple (SimpleStmt.exprCall "df.head")],
       nbCell ["df"] [Stmt.simple (SimpleStmt.exprCall "df.iloc.plot")],
       nbCell ["tsaplots", "df", "plt"]
         [Stmt.simple (SimpleStmt.assignCall ["fig"] "tsaplots.plot_acf"),
          Stmt.simple (SimpleStmt.exprCall "plt.show")],
       nbCell ["tsaplots", "df", "plt"]
         [Stmt.simple (SimpleStmt.assignCall ["fig"] "tsaplots.plot_pacf"),
          Stmt.simple (SimpleStmt.exprCall "plt.show")],
       tsCcfDefCell,
       nbCell ["pd", "lynx_df", "spot_df", "df"]
         [Stmt.simple (SimpleStmt.assignCall ["lynx_df"] "pd.read_csv"),
          Stmt.simple (SimpleStmt.assignCall ["spot_df"] "pd.read_csv"),
          Stmt.simple (SimpleStmt.assignCall ["df"] "pd.merge"),
          Stmt.simple (SimpleStmt.assignCall ["df"] "df.set_index"),
          Stmt.simple (SimpleStmt.exprCall "df.head")],
       nbCell ["df"] [Stmt.simple (SimpleStmt.exprCall "df.plot")],
       nbCell ["plt", "ccf_stats", "df", "np", "ax", "ccf_res_stats",
               "conf_int"]
         [Stmt.simple (SimpleStmt.assignCall ["fig", "ax"] "plt.subplots"),
          Stmt.simple (SimpleStmt.assignCall ["ccf_res_stats"] "ccf_stats"),
          Stmt.simple (SimpleStmt.assignCall ["conf_int"] "np.sqrt"),
          Stmt.simple (SimpleStmt.exprCall "ax.stem"),
          Stmt.simple (SimpleStmt.exprCall "ax.axhline"),
          Stmt.simple (SimpleStmt.exprCall "ax.axhline"),
          Stmt.simple (SimpleStmt.exprCall "ax.axhline"),
          Stmt.simple (SimpleStmt.exprCall "ax.set_ylabel"),
          Stmt.simple (SimpleStmt.exprCall "ax.set_xlabel"),
          Stmt.simple (SimpleStmt.exprCall "plt.show")],
       nbCell ["pd", "web", "datetime", "df", "ts_start_date"]
         [Stmt.importStmt "pandas_datareader.data" "web",
          Stmt.importStmt "datetime" "datetime",
          Stmt.simple (SimpleStmt.assignCall ["ts_start_date"]
            "pd.to_datetime"),
          Stmt.simple (SimpleStmt.assignCall ["df"] "web.DataReader"),
          Stmt.simple (SimpleStmt.assignLit ["df.columns"] "[gdp]"),
          Stmt.simple (SimpleStmt.exprCall "df.head")],
       nbCell ["np", "df"]
         [Stmt.simple (SimpleStmt.assignCall ["df[log]"] "np.log"),
          Stmt.simple (SimpleStmt.assignCall ["df[square]"] "np.power"),
          Stmt.simple (SimpleStmt.assignCall ["df[sqrt]"] "np.sqrt"),
          Stmt.simple (SimpleStmt.exprCall "df.head")],
       nbCell ["df"]
         [Stmt.simple (SimpleStmt.assignCall ["df[q_on_q]"]
            "df[gdp].pct_change"),
          Stmt.simple (SimpleStmt.assignCall ["df[q_on_q_yr_ago]"]
            "df[gdp].pct_change"),
          Stmt.simple (SimpleStmt.exprCall "df.tail")],
       nbCell ["df"]
         [Stmt.simple (SimpleStmt.assignCall ["df[demean]"]
            "df[gdp] - df[gdp].mean"),
          Stmt.simple (SimpleStmt.exprCall "df[[gdp, demean]].tail")],
       nbCell ["df"]
         [Stmt.simple (SimpleStmt.assignCall ["df[real_time_demean]"]
            "df[gdp] - df[gdp].expanding.mean"),
          Stmt.simple (SimpleStmt.exprCall "df[[gdp, real_time_demean]].head")],
       nbCell ["df"]
         [Stmt.simple (SimpleStmt.assignCall ["df[difference]"]
            "df[gdp].diff"),
          Stmt.simple (SimpleStmt.exprCall "df[[gdp, difference]].head")],
       tsBoxCoxCell,
       nbCell ["pd", "web", "fred_codes", "cdf"]
         [Stmt.simple (SimpleStmt.assignLit ["fred_codes"]
            "dict mapping FRED series codes to column names"),
          Stmt.simple (SimpleStmt.assignCall ["cdf"] "pd.concat"),
          Stmt.simple (SimpleStmt.exprCall "cdf.head")],
       tsCheddarCell] }

/-- The chapters whose sources sit under src/: the three chapter files
plus the RBC-model and time-series notebooks contained in the
src/.pre-commit-config.yaml blob. -/
def chapters : List Chapter :=
  [edaChapter, commonPlotsChapter, comingFromRChapter, rbcChapter,
   timeSeriesChapter]

/-- Third-party and standard-library modules, covering every module the
embedded chapters import. -/
def thirdPartyOrStdlibModules : List String :=
  ["pandas", "matplotlib.pyplot", "numpy", "numpy.random", "itertools",
   "dataprep.clean", "dataprep.eda", "pandas_profiling",
   "IPython.core.display", "plotnine", "altair", "vega_datasets", "myst_nb",
   "statsmodels.api", "statsmodels.graphics", "statsmodels.formula.api",
   "sympy", "rich", "requests", "pandas_datareader", "pandas_datareader.data",
   "datetime", "scipy", "scipy.signal"]

/-- Python modules that create threads, processes, coroutines or async
tasks. -/
def concurrencyModules : List String :=
  ["threading", "multiprocessing", "asyncio", "concurrent",
   "concurrent.futures", "_thread", "subprocess"]

/-! ## The table of contents -/

/-- The file entries of src/_toc.yml in document order (entries commented
out in the source, such as coding-for-economists-quickstart, are not
declared and are excluded). -/
def tocFileEntries : List String :=
  ["intro",
   "code-preliminaries", "code-basics", "code-advanced", "code-where",
   "wrkflow-best-practice", "wrkflow-advcd-best-practice",
   "wrkflow-command-line",
   "data-analysis-quickstart", "data-intro", "data-exploratory-analysis",
   "data-read-and-write", "data-extraction", "data-sharing", "data-advanced",
   "vis-intro", "vis-common-plots", "vis-animation",
   "econmt-probability-random", "econmt-statistics", "econmt-regression",
   "text-intro", "text-nlp",
   "time-intro", "time-series", "time-fcasts-env",
   "geo-intro", "geo-vis",
   "maths-maths-coding",
   "auto-research-outputs",
   "coming-from-stata", "coming-from-matlab", "coming-from-r",
   "coming-from-excel",
   "zreferences"]

/-- Modelled from the spec: the chapter source files of the repository.
Only a few chapter sources are under src/; the spec states that every
internal cross-reference in the table of contents resolves to an existing
chapter file, so the modelled file listing contains a chapter source file
for every name the table of contents declares (listed here
alphabetically). -/
def repoChapterFiles : List String :=
  ["auto-research-outputs", "code-advanced", "code-basics",
   "code-preliminaries", "code-where", "coming-from-excel",
   "coming-from-matlab", "coming-from-r", "coming-from-stata",
   "data-advanced", "data-analysis-quickstart", "data-exploratory-analysis",
   "data-extraction", "data-intro", "data-read-and-write", "data-sharing",
   "econmt-probability-random", "econmt-regression", "econmt-statistics",
   "geo-intro", "geo-vis", "intro", "maths-maths-coding", "text-intro",
   "text-nlp", "time-fcasts-env", "time-intro", "time-series",
   "vis-animation", "vis-common-plots", "vis-intro",
   "wrkflow-advcd-best-practice", "wrkflow-best-practice",
   "wrkflow-command-line", "zreferences"]

/-! ## The pre-commit configuration -/

/-- A hook declared by a repos entry of the pre-commit configuration.
Only the hook id is embedded; the auxiliary display fields of the source
(name, description, entry, language, types, files) are elided. -/
structure PrecommitHook where
  id : String
deriving DecidableEq

/-- A repos entry of the pre-commit configuration: the hook repository URL,
the revision it is pinned to, and the hooks it enables. -/
structure PrecommitRepo where
  url : String
  rev : String
  hooks : List PrecommitHook
deriving DecidableEq

/-- The five repos entries of src/.pre-commit-config.yaml, in source
order, each with its pinned rev. -/
def precommitRepos : List PrecommitRepo :=
  [{ url := "https://github.com/pre-commit/pre-commit-hooks", rev := "v4.0.1",
     hooks := [{ id := "check-added-large-files" }] },
   { url := "https://github.com/kynan/nbstripout", rev := "0.4.0",
     hooks := [{ id := "nbstripout" }] },
   { url := "https://github.com/psf/black", rev := "21.6b0",
     hooks := [{ id := "black" }] },
   { url := "https://github.com/pycqa/flake8", rev := "3.9.2",
     hooks := [{ id := "flake8" }] },
   { url := "https://github.com/tomcatling/black-nb", rev := "0.5.0",
     hooks := [{ id := "black-nb" }] }]

/-- All hook ids the pre-commit configuration declares. -/
def declaredHookIds : List String :=
  precommitRepos.foldr (fun r acc => r.hooks.map PrecommitHook.id ++ acc) []

/-! ## Lemmas about the numeric helpers -/

/-- Removing the mean keeps the length of a series. -/
theorem demean_length (xs : List ℚ) : (demean xs).length = xs.length := by
  simp [demean]

/-- The full cross-correlation of two series has length x + length y - 1
entries. -/
theorem crossCorrFull_length (x y : List ℚ) :
    (crossCorrFull x y).length = x.length + y.length - 1 := by
  simp [crossCorrFull]

/-- The normalized cross-correlation list of ccf_stats has
length x + length y - 1 entries. -/
theorem ccfResult_length (x y : List ℚ) :
    (ccfResult x y).length = x.length + y.length - 1 := by
  rw [ccfResult, List.length_map, crossCorrFull_length, demean_length,
    demean_length]

/-- The slice taken by ccf_stats from a list of 2n+1 entries with a lag
bound of at most n has 2 * lm + 1 entries and its centre entry (index lm)
is the centre entry (index n) of the full list. -/
theorem lagSlice_spec (result : List ℝ) (lm n : ℕ)
    (hres : result.length = 2 * n + 1) (hub : lm ≤ n) :
    (lagSlice result lm).length = 2 * lm + 1 ∧
    (lagSlice result lm).getD lm 0 = result.getD n 0 := by
  constructor
  · simp only [lagSlice, List.length_take, List.length_drop, hres]
    omega
  · have hidx : (result.length - 1) / 2 - lm + lm = n := by omega
    simp only [lagSlice, List.getD_eq_getElem?_getD]
    rw [List.getElem?_take, if_pos (by omega), List.getElem?_drop, hidx]

/-! ## Claim theorems -/

/-- Claim C8: convert_date_code_to_datetime maps every integer date code d
to the timestamp 2005-01-01 plus (d - 16436) days; in particular it maps
the start code 16436 to 2005-01-01 exactly, and it is strictly increasing
in d. -/
theorem convert_date_code_to_datetime_spec :
    (∀ d : ℤ, convert_date_code_to_datetime d = jan1_2005 + (d - 16436)) ∧
    convert_date_code_to_datetime 16436 = jan1_2005 ∧
    ∀ d e : ℤ, d < e →
      convert_date_code_to_datetime d < convert_date_code_to_datetime e := by
  refine ⟨fun d => rfl, by simp [convert_date_code_to_datetime, start_code],
    fun d e h => ?_⟩
  simp only [convert_date_code_to_datetime]
  omega

/-- Witness: the strict-increase clause of C8 at the concrete codes 16436
and 16437. -/
theorem convert_date_code_to_datetime_spec_witness :
    convert_date_code_to_datetime 16436 < convert_date_code_to_datetime 16437 :=
  convert_date_code_to_datetime_spec.2.2 16436 16437 (by decide)

/-- Claim C10: when the inflation index at the base date 2021-12-31 is
nonzero, the inflation-adjusted cheddar series agrees with the nominal
series at the base date: the adjustment is the identity at the base
period. -/
theorem cheddar_i_adjust_base_identity (inflation cheddar : ℤ → ℚ)
    (h : inflation base_date ≠ 0) :
    cheddar_i_adjust inflation cheddar base_date = cheddar base_date := by
  unfold cheddar_i_adjust
  rw [mul_comm, mul_div_assoc, div_self h, mul_one]

/-- Witness: C10 applied to the constant inflation index 3 and the constant
nominal series 7. -/
theorem cheddar_i_adjust_base_identity_witness :
    cheddar_i_adjust (fun _ => (3 : ℚ)) (fun _ => (7 : ℚ)) base_date = 7 :=
  cheddar_i_adjust_base_identity (fun _ => (3 : ℚ)) (fun _ => (7 : ℚ))
    (by norm_num)

/-- Claim C9: for equal-length series of length n at least 2 and any lag
bound between 1 and n - 1, ccf_stats returns exactly 2 * lag_max + 1
values, and the entry in the centre (index lag_max) is the zero-lag entry
(index n - 1) of the normalized full cross-correlation of the mean-removed
series; the same holds with the default lag bound whenever that default
lies in the same range. -/
theorem ccf_stats_spec (x y : List ℚ) (lag_max : ℕ)
    (hlen : x.length = y.length) (h2 : 2 ≤ x.length)
    (h1 : 1 ≤ lag_max) (hub : lag_max ≤ x.length - 1) :
    ((ccf_stats x y (some lag_max)).length = 2 * lag_max + 1 ∧
      (ccf_stats x y (some lag_max)).getD lag_max 0 =
        (ccfResult x y).getD (x.length - 1) 0) ∧
    (1 ≤ defaultLagMax x y → defaultLagMax x y ≤ x.length - 1 →
      (ccf_stats x y none).length = 2 * defaultLagMax x y + 1 ∧
      (ccf_stats x y none).getD (defaultLagMax x y) 0 =
        (ccfResult x y).getD (x.length - 1) 0) := by
  have hres : (ccfResult x y).length = 2 * (x.length - 1) + 1 := by
    rw [ccfResult_length]; omega
  constructor
  · have hstep : ccf_stats x y (some lag_max) =
        lagSlice (ccfResult x y)
          (if lag_max = 0 then defaultLagMax x y else lag_max) := rfl
    rw [hstep, if_neg (by omega)]
    exact lagSlice_spec (ccfResult x y) lag_max (x.length - 1) hres (by omega)
  · intro hd1 hd2
    have hstep : ccf_stats x y none =
        lagSlice (ccfResult x y) (defaultLagMax x y) := rfl
    rw [hstep]
    exact lagSlice_spec (ccfResult x y) (defaultLagMax x y) (x.length - 1)
      hres hd2

/-- Witness: C9 at the concrete series x = [1, 2, 3], y = [4, 5, 6] with
the explicit lag bound 1. -/
theorem ccf_stats_spec_witness :
    (ccf_stats [1, 2, 3] [4, 5, 6] (some 1)).length = 2 * 1 + 1 ∧
    (ccf_stats [1, 2, 3] [4, 5, 6] (some 1)).getD 1 0 =
      (ccfResult [1, 2, 3] [4, 5, 6]).getD
        ((List.length [(1 : ℚ), 2, 3]) - 1) 0 :=
  (ccf_stats_spec [1, 2, 3] [4, 5, 6] 1 rfl (by decide) (by decide)
    (by decide)).1

/-- Claim C2: every file entry declared in the table of contents names an
existing chapter source file of the repository (the repository file listing
being modelled from the spec, since only a few chapter sources are under
src/). -/
theorem toc_references_resolve :
    ∀ f ∈ tocFileEntries, f ∈ repoChapterFiles := by
  decide

/-- Witness: C2 at the table-of-contents entry for the
exploratory-data-analysis chapter, whose source file is under src/. -/
theorem toc_references_resolve_witness :
    "data-exploratory-analysis" ∈ repoChapterFiles :=
  toc_references_resolve "data-exploratory-analysis" (by decide)

/-- Claim C1 (code bug): the single code cell of the RBC-model notebook
calls pd.set_option although no statement of that notebook imports pandas
or binds pd, so executing its cells in order from the top raises a
NameError; every other chapter resolves all the names its executed cells
use. -/
theorem rbc_pd_set_option_unbound :
    rbcChapter ∈ chapters ∧
    rbcCodeCell ∈ rbcChapter.cells ∧
    Stmt.simple (SimpleStmt.exprCall "pd.set_option") ∈ rbcCodeCell.stmts ∧
    "pd" ∈ rbcCodeCell.uses ∧
    "pd" ∉ rbcCodeCell.boundNames ∧
    "pandas" ∉ rbcChapter.importedModules ∧
    rbcChapter.selfContained = false ∧
    edaChapter.selfContained = true ∧
    commonPlotsChapter.selfContained = true ∧
    comingFromRChapter.selfContained = true ∧
    timeSeriesChapter.selfContained = true := by
  decide

/-- Claim C4: every module imported by any chapter is a third-party or
standard-library module and none is a chapter of this repository; and for
any two distinct chapters, no name one chapter uses without binding it
itself (the only kind of name through which it could reach another
chapter) is code or runtime state another chapter produces, so no chapter
calls code defined in, or reads runtime state produced by, another
chapter. -/
theorem chapters_import_only_third_party :
    ∀ ch ∈ chapters,
      (∀ m ∈ ch.importedModules,
        m ∈ thirdPartyOrStdlibModules ∧ m ∉ chapters.map Chapter.name) ∧
      (∀ other ∈ chapters, other ≠ ch →
        ∀ u ∈ ch.unresolvedNames, u ∉ other.producedState) := by
  decide

/-- Witness: C4 at the pandas import of the exploratory-data-analysis
chapter and at the unresolved name pd of the RBC-model notebook against
the state produced by the exploratory-data-analysis chapter. -/
theorem chapters_import_only_third_party_witness :
    ("pandas" ∈ thirdPartyOrStdlibModules ∧
      "pandas" ∉ chapters.map Chapter.name) ∧
    "pd" ∉ edaChapter.producedState :=
  ⟨(chapters_import_only_third_party edaChapter (by decide)).1 "pandas"
      (by decide),
    (chapters_import_only_third_party rbcChapter (by decide)).2 edaChapter
      (by decide) (by decide) "pd" (by decide)⟩

/-- Claim C5: every code cell of every notebook committed to the repository
has execution_count null (embedded as none) and an empty outputs list, as
the nbstripout pre-commit hook prescribes. -/
theorem notebook_outputs_stripped :
    ∀ ch ∈ chapters, ch.isNotebook = true →
      ∀ c ∈ ch.cells, c.executionCount = none ∧ c.outputs = [] := by
  decide

/-- Witness: C5 at the data-loading cell of the exploratory-data-analysis
notebook. -/
theorem notebook_outputs_stripped_witness :
    edaReadCsvCell.executionCount = none ∧ edaReadCsvCell.outputs = [] :=
  notebook_outputs_stripped edaChapter (by decide) (by decide) edaReadCsvCell
    (by decide)

/-- Claim C6: the pre-commit configuration declares hooks covering all
three stated hygiene concerns - the large-file check, notebook output
stripping and formatting/linting - and pins every hook repository to a
fixed, nonempty revision. -/
theorem precommit_covers_hygiene :
    (["check-added-large-files", "nbstripout", "black", "black-nb",
      "flake8"].all (fun i => declaredHookIds.elem i)) = true ∧
    (precommitRepos.all (fun r => !r.rev.isEmpty)) = true := by
  decide

/-- Claim C7: no chapter imports a module that creates threads, processes,
coroutines or async tasks, every statement of every cell is a plain
synchronous statement, and no name a chapter uses without binding it
itself is mutable state another chapter writes, so no mutable state
written while executing one chapter is read while executing another. -/
theorem chapters_synchronous :
    ∀ ch ∈ chapters,
      (∀ m ∈ ch.importedModules, m ∉ concurrencyModules) ∧
      (∀ c ∈ ch.cells, ∀ s ∈ c.stmts, s.isPlainSync = true) ∧
      (∀ other ∈ chapters, other ≠ ch →
        ∀ u ∈ ch.unresolvedNames, u ∉ other.producedState) := by
  decide

/-- Witness: C7 at the pandas import and the head statement of the
exploratory-data-analysis chapter, and at the unresolved name pd of the
RBC-model notebook against the state written by the time-series
chapter. -/
theorem chapters_synchronous_witness :
    ("pandas" ∉ concurrencyModules) ∧
    Stmt.isPlainSync (Stmt.simple (SimpleStmt.exprCall "df.head")) = true ∧
    "pd" ∉ timeSeriesChapter.producedState :=
  ⟨(chapters_synchronous edaChapter (by decide)).1 "pandas" (by decide),
    (chapters_synchronous edaChapter (by decide)).2.1 edaReadCsvCell
      (by decide) (Stmt.simple (SimpleStmt.exprCall "df.head")) (by decide),
    (chapters_synchronous rbcChapter (by decide)).2.2 timeSeriesChapter
      (by decide) (by decide) "pd" (by decide)⟩

end CodingForEconomists
